import Mathlib

/-!
Shallow embedding of the SQL clause-assembly engine of `src/app.py`
(a Streamlit "no-code" query builder for Snowflake).

Strings are modelled as `List Char` (`Str`).  Each definition mirrors one
Python function or inline block of `app.py`; the line numbers in the doc
comments refer to that file.  Python truthiness of optional strings is
modelled by `optTruthy`, `str(x)` applied to a possibly-`None` value by
`pyStrOpt`.  Regular-expression based checks (`validate_sql_value`) are
modelled character by character; only ASCII case folding and ASCII digits
are modelled, which covers every value considered in the theorems below.
-/

set_option autoImplicit false

/-- Strings are modelled as lists of characters. -/
abbrev Str := List Char

/-- Python `\s` whitespace, restricted to the ASCII range used here. -/
def isPySpace (c : Char) : Bool :=
  c = ' ' || c = '\t' || c = '\n' || c = '\x0b' || c = '\x0c' || c = '\r'

/-- ASCII upper-casing of one character (models `re.IGNORECASE` on ASCII). -/
def asciiUpper (c : Char) : Char :=
  if 'a' ≤ c ∧ c ≤ 'z' then Char.ofNat (c.toNat - 32) else c

/-- ASCII decimal digit (models Python `str.isdigit` on ASCII input). -/
def isAsciiDigit (c : Char) : Bool :=
  '0' ≤ c && c ≤ '9'

/-- Python `s.isdigit()`: non-empty and all digits. -/
def pyIsDigit (s : Str) : Bool :=
  !s.isEmpty && s.all isAsciiDigit

/-- Characters kept by `sanitize_identifier` (app.py:24): the regex
`[^a-zA-Z0-9_"]` strips everything outside this class. -/
def isIdentChar (c : Char) : Bool :=
  ('a' ≤ c && c ≤ 'z') || ('A' ≤ c && c ≤ 'Z') || ('0' ≤ c && c ≤ '9') || c = '_' || c = '"'

/-- Embeds `sanitize_identifier` (app.py:19-25): `None`/empty input gives
`None`; otherwise disallowed characters are stripped and an identifier that
becomes empty is mapped to `None`. -/
def sanitize_identifier : Option Str → Option Str
  | none => none
  | some s =>
    if s = [] then none
    else
      let t := s.filter isIdentChar
      if t = [] then none else some t

/-- Python truthiness of an optional string: `None` and `""` are falsy. -/
def optTruthy : Option Str → Bool
  | none => false
  | some s => !s.isEmpty

/-- Python `str(x)` for a value that is either a string or `None`. -/
def pyStrOpt : Option Str → Str
  | none => "None".data
  | some s => s

/-- Does `s` start with `pat`? -/
def startsWithStr : Str → Str → Bool
  | _, [] => true
  | [], _ :: _ => false
  | c :: s, p :: ps => c = p && startsWithStr s ps

/-- Does `pat` occur as a contiguous substring of the second argument? -/
def hasInfixB (pat : Str) : Str → Bool
  | [] => pat.isEmpty
  | c :: rest => startsWithStr (c :: rest) pat || hasInfixB pat rest

/-- Scan for a closing `*/` before the next newline (the `.` of the regex
`/\*.*\*/` does not match `\n`). -/
def findCloseNoNL : Str → Bool
  | '*' :: '/' :: _ => true
  | '\n' :: _ => false
  | _ :: rest => findCloseNoNL rest
  | [] => false

/-- Does the string begin with `/*` followed by `*/` on the same line? -/
def startsBlockHere : Str → Bool
  | '/' :: '*' :: rest => findCloseNoNL rest
  | _ => false

/-- Models `re.search` of the pattern `/\*.*\*/` (app.py:34). -/
def hasBlockComment : Str → Bool
  | [] => false
  | c :: rest => startsBlockHere (c :: rest) || hasBlockComment rest

/-- Models `re.search` of the pattern `;\s*$` (app.py:35): a semicolon
followed only by whitespace up to the end of the string. -/
def semiTrailing : Str → Bool
  | [] => false
  | ';' :: rest => rest.all isPySpace || semiTrailing rest
  | _ :: rest => semiTrailing rest

/-- The keyword `kw` (given in upper case) matches here, case-insensitively,
followed by at least one whitespace character (`KW\s+`). -/
def kwHere : Str → Str → Bool
  | [], d :: _ => isPySpace d
  | [], [] => false
  | _ :: _, [] => false
  | k :: ks, c :: cs => asciiUpper c = k && kwHere ks cs

/-- Models `re.search` of `KW\s+` with `re.IGNORECASE` (app.py:36-41). -/
def containsKwWs (kw : Str) : Str → Bool
  | [] => false
  | c :: rest => kwHere kw (c :: rest) || containsKwWs kw rest

/-- The SQL line-comment marker `--` (app.py:33). -/
def dashdash : Str := "--".data

/-- The statement keywords rejected by `validate_sql_value` (app.py:36-41). -/
def kwList : List Str :=
  [("DROP").data, ("DELETE").data, ("UPDATE").data, ("INSERT").data, ("CREATE").data, ("ALTER").data]

/-- One of the dangerous patterns of app.py:32-42 matches the value. -/
def dangerousHit (v : Str) : Bool :=
  hasInfixB dashdash v || hasBlockComment v || semiTrailing v ||
    kwList.any (fun kw => containsKwWs kw v)

/-- Embeds `validate_sql_value` (app.py:27-46): empty values are accepted,
otherwise the value is rejected exactly when a dangerous pattern matches. -/
def validate_sql_value (v : Str) : Bool :=
  if v = [] then true else !dangerousHit v

example : validate_sql_value ("a'; DROP TABLE x; --").data = false := by decide
example : validate_sql_value ("DROP").data = true := by decide
example : validate_sql_value ("xDROP y").data = false := by decide
example : validate_sql_value ("O'Brien").data = true := by decide
example : sanitize_identifier (some ("abc\"; DROP").data) = some ("abc\"DROP").data := by decide
example : semiTrailing ("ab; \n").data = true := by decide
example : hasBlockComment ("a/*\n*/").data = false := by decide
example : hasBlockComment ("a/**/b").data = true := by decide

/-- A SELECT-list entry (created by `add_item 'select_items'`, app.py:173-176). -/
structure SelectItem where
  id : Str
  column : Option Str
  agg_func : Str
  deriving DecidableEq

/-- A WHERE condition (created by `add_item 'where_conditions'`, app.py:177-182). -/
structure WhereCondition where
  id : Str
  logical : Str
  column : Option Str
  operator : Str
  value : Option Str
  deriving DecidableEq

/-- An ON condition inside a join (app.py:188-196). -/
structure OnCondition where
  id : Str
  left_col : Option Str
  right_col : Option Str
  deriving DecidableEq

/-- A join specification (created by `add_item 'joins'`, app.py:183-187). -/
structure Join where
  id : Str
  type : Str
  right_table : Option Str
  on_conditions : List OnCondition
  deriving DecidableEq

/-- The mutable query shape held in `st.session_state` (app.py:63-69). -/
structure QueryShape where
  select_items : List SelectItem
  where_conditions : List WhereCondition
  joins : List Join
  deriving DecidableEq

/-- The three top-level ordered sequences of the query shape. -/
inductive CollectionKey where
  | select_items
  | where_conditions
  | joins
  deriving DecidableEq

/-- Removes the matching ON condition from the first join whose id equals
`pid`, leaving later joins untouched (the `break` in app.py:201-207). -/
def removeOnFromJoins : List Join → Str → Str → List Join
  | [], _, _ => []
  | j :: rest, pid, iid =>
    if j.id = pid then
      { j with on_conditions := j.on_conditions.filter fun c => decide ¬(c.id = iid) } :: rest
    else
      j :: removeOnFromJoins rest pid iid

/-- Embeds `remove_item` (app.py:198-212): with a truthy `parent_id` the ON
condition is removed from the matching join; otherwise the entry is filtered
out of the named top-level sequence.  A missing id is a no-op. -/
def remove_item (shape : QueryShape) (key : CollectionKey) (item_id : Str)
    (parent_id : Option Str) : QueryShape :=
  if optTruthy parent_id = true then
    { shape with joins := removeOnFromJoins shape.joins (pyStrOpt parent_id) item_id }
  else
    match key with
    | CollectionKey.select_items =>
      { shape with select_items := shape.select_items.filter fun it => decide ¬(it.id = item_id) }
    | CollectionKey.where_conditions =>
      { shape with
          where_conditions := shape.where_conditions.filter fun it => decide ¬(it.id = item_id) }
    | CollectionKey.joins =>
      { shape with joins := shape.joins.filter fun it => decide ¬(it.id = item_id) }

/-- The operator dictionary keys of app.py:96-109, as needed below. -/
def sIsNull : Str := "IS NULL".data

/-- The `IS NOT NULL` operator key. -/
def sIsNotNull : Str := "IS NOT NULL".data

/-- The two null-check operators (app.py:382, 391). -/
def nullOps : List Str := [sIsNull, sIsNotNull]

/-- The `IN` operator key. -/
def sIn : Str := "IN".data

/-- The substring `LIKE` used by the `'LIKE' in op` check (app.py:397). -/
def sLike : Str := "LIKE".data

/-- The partial-match LIKE operator key. -/
def sLikeContains : Str := "LIKE_PARTIAL".data

/-- The forward-match LIKE operator key. -/
def sLikeForward : Str := "LIKE_FORWARD".data

/-- The backward-match LIKE operator key. -/
def sLikeBackward : Str := "LIKE_BACKWARD".data

/-- The equality operator key. -/
def sEq : Str := "=".data

/-- The six plain comparison operator keys of app.py:96-102 (every operator
that reaches the `else` branch of app.py:405-413). -/
def cmpOps : List Str :=
  [sEq, ("!=").data, (">").data, (">=").data, ("<").data, ("<=").data]

/-- The `'none'` aggregate key (app.py:88). -/
def sNone : Str := "none".data

/-- The `'COUNT(DISTINCT)'` aggregate key (app.py:94). -/
def sCountDistinct : Str := "COUNT(DISTINCT)".data

/-- Python `item.get('column') in all_columns`: `None` is never a member. -/
def colOk (o : Option Str) (cols : List Str) : Bool :=
  match o with
  | some c => decide (c ∈ cols)
  | none => false

/-- Python `s.replace("'", "''")`: every single quote is doubled. -/
def escapeQuotes : Str → Str
  | [] => []
  | c :: rest => if c = '\'' then c :: c :: escapeQuotes rest else c :: escapeQuotes rest

/-- Python `s.strip()` restricted to the modelled whitespace. -/
def pyStrip (s : Str) : Str :=
  ((s.dropWhile isPySpace).reverse.dropWhile isPySpace).reverse

/-- Python `s.split(',')`: split on every comma, keeping empty segments. -/
def splitComma : Str → List Str
  | [] => [[]]
  | ',' :: rest => [] :: splitComma rest
  | c :: rest =>
    match splitComma rest with
    | s :: ss => (c :: s) :: ss
    | [] => [[c]]

/-- The list comprehension of app.py:394: trim each comma segment, drop the
empty ones, and wrap each survivor in single quotes (no escaping). -/
def inItems (v : Str) : List Str :=
  (splitComma v).filterMap fun seg =>
    let t := pyStrip seg
    if t = [] then none else some ('\'' :: t ++ ['\''])

/-- Python `str(val).replace('.', '').replace('-', '')` (app.py:407). -/
def stripDotDash (v : Str) : Str :=
  v.filter fun ch => !(ch = '.' || ch = '-')

/-- The separator joining IN items and GROUP BY columns. -/
def sepCommaSpace : Str := ", ".data

/-- Embeds the body of the loop of `build_condition_clause` (app.py:380-413):
the predicate text one condition contributes, or `[]` when it is skipped
(column invalid, incomplete, rejected value, or no surviving IN item). -/
def condStr (cols : List Str) (cond : WhereCondition) : Str :=
  if colOk cond.column cols = true ∧ (cond.operator ∉ nullOps ∨ cond.value ≠ none) then
    let op := cond.operator
    let val := pyStrOpt cond.value
    let col := pyStrOpt cond.column
    if validate_sql_value val = false then []
    else if op ∈ nullOps then col ++ (" ").data ++ op
    else if op = sIn then
      let items := inItems val
      if items ≠ [] then col ++ (" IN (").data ++ List.intercalate sepCommaSpace items ++ (")").data
      else []
    else if hasInfixB sLike op = true then
      let lv := escapeQuotes val
      if op = sLikeContains then col ++ (" LIKE '%").data ++ lv ++ ("%'").data
      else if op = sLikeForward then col ++ (" LIKE '").data ++ lv ++ ("%'").data
      else if op = sLikeBackward then col ++ (" LIKE '%").data ++ lv ++ ("'").data
      else []
    else
      let fv := if pyIsDigit (stripDotDash val) = true then val
                else '\'' :: escapeQuotes val ++ ['\'']
      col ++ (" ").data ++ op ++ (" ").data ++ fv
  else []

/-- The enumerate loop of `build_condition_clause` (app.py:379-416): each
non-empty contribution is collected, prefixed from index 1 on with its
logical connector; the index advances even across skipped conditions. -/
def buildConditionParts (cols : List Str) : Nat → List WhereCondition → List Str
  | _, [] => []
  | i, cond :: rest =>
    let cs := condStr cols cond
    let tail := buildConditionParts cols (i + 1) rest
    if cs ≠ [] then (if i > 0 then cond.logical ++ ' ' :: cs else cs) :: tail else tail

/-- The separator between WHERE-clause parts (app.py:417). -/
def sepNewlineIndent : Str := "\n  ".data

/-- Embeds `build_condition_clause` (app.py:376-417). -/
def build_condition_clause (cols : List Str) (conds : List WhereCondition) : Str :=
  let parts := buildConditionParts cols 0 conds
  if parts ≠ [] then List.intercalate sepNewlineIndent parts else []

example :
    build_condition_clause [("t.c").data]
      [⟨("i1").data, ("AND").data, some ("t.c").data, sEq, some ("O'Brien").data⟩] =
      ("t.c = 'O''Brien'").data := by decide

example :
    build_condition_clause [("t.c").data]
      [⟨("i1").data, ("AND").data, some ("t.c").data, sIn, some (" A, B ,,C").data⟩] =
      ("t.c IN ('A', 'B', 'C')").data := by decide

/-- The SELECT-loop of `generate_sql_query` (app.py:424-437): walks the
select items once, producing the SELECT parts and — gated on
`is_aggregation_used` — the GROUP BY parts. -/
def selectAndGroupParts (cols : List Str) (isAgg : Bool) :
    List SelectItem → List Str × List Str
  | [] => ([], [])
  | item :: rest =>
    let tail := selectAndGroupParts cols isAgg rest
    match item.column with
    | some col =>
      if col ∈ cols then
        if item.agg_func = sNone then
          (col :: tail.1, if isAgg then col :: tail.2 else tail.2)
        else if item.agg_func = sCountDistinct then
          ((("COUNT(DISTINCT ").data ++ col ++ (")").data) :: tail.1, tail.2)
        else
          ((item.agg_func ++ ("(").data ++ col ++ (")").data) :: tail.1, tail.2)
      else tail
    | none => tail

/-- Line 370 of app.py: `any(item.get('agg_func') != 'none' for item in
st.session_state.select_items)`. -/
def isAggregationUsed (shape : QueryShape) : Bool :=
  shape.select_items.any fun it => decide ¬(it.agg_func = sNone)

/-- The ON-condition comprehension of app.py:445-449: pairs where both
columns are truthy contribute `left = right`. -/
def onClauseParts (ocs : List OnCondition) : List Str :=
  ocs.filterMap fun oc =>
    if optTruthy oc.left_col = true ∧ optTruthy oc.right_col = true then
      some (pyStrOpt oc.left_col ++ (" = ").data ++ pyStrOpt oc.right_col)
    else none

/-- The text one join appends to the FROM clause (app.py:443-451): nothing
unless the right table is truthy, the ON list is non-empty, and at least one
ON pair is complete.  Note the right table is interpolated raw. -/
def joinClauseStr (db sch : Str) (j : Join) : Str :=
  if optTruthy j.right_table = true ∧ j.on_conditions ≠ [] then
    let parts := onClauseParts j.on_conditions
    if parts ≠ [] then
      ("\n  ").data ++ j.type ++ (" \"").data ++ db ++ ("\".\"").data ++ sch ++
        ("\".\"").data ++ pyStrOpt j.right_table ++ ("\"\n    ON ").data ++
        List.intercalate (" AND ").data parts
    else []
  else []

/-- The start of the FROM clause (app.py:442): the fully qualified primary
table, interpolated without sanitization. -/
def fromStart (db sch tbl : Str) : Str :=
  ("FROM \"").data ++ db ++ ("\".\"").data ++ sch ++ ("\".\"").data ++ tbl ++ ("\"").data

/-- The separator between SELECT parts (app.py:439). -/
def sepSelect : Str := ",\n    ".data

/-- The text introducing the GROUP BY clause (app.py:463). -/
def sepGroupBy : Str := "\nGROUP BY\n    ".data

/-- Everything `generate_sql_query` assembles before the GROUP BY clause:
SELECT list (or `*`), FROM with joins, and the optional WHERE clause
(app.py:424-459). -/
def basePart (db sch tbl : Str) (shape : QueryShape) (cols : List Str) (isAgg : Bool) : Str :=
  let sg := selectAndGroupParts cols isAgg shape.select_items
  let select_clause := if sg.1 = [] then ("*").data else List.intercalate sepSelect sg.1
  let full_from := fromStart db sch tbl ++ (shape.joins.map (joinClauseStr db sch)).flatten
  let base := ("SELECT\n    ").data ++ select_clause ++ ("\n").data ++ full_from
  let wc := build_condition_clause cols shape.where_conditions
  if wc ≠ [] then base ++ ("\nWHERE\n  ").data ++ wc else base

/-- Embeds `generate_sql_query` (app.py:419-474): the SELECT/FROM/WHERE part
(`basePart`, app.py:424-459), then the GROUP BY clause when aggregation is in
use and the GROUP BY list is non-empty (app.py:462-463), then the closing
semicolon (app.py:465).  The Python body cannot raise on the modelled states,
so the `except` branch returning `""` is dead and the function is total. -/
def generate_sql_query (db sch tbl : Str) (shape : QueryShape) (cols : List Str)
    (isAgg : Bool) : Str :=
  (if isAgg = true ∧ (selectAndGroupParts cols isAgg shape.select_items).2 ≠ [] then
     basePart db sch tbl shape cols isAgg ++ sepGroupBy ++
       List.intercalate sepCommaSpace (selectAndGroupParts cols isAgg shape.select_items).2
   else basePart db sch tbl shape cols isAgg) ++ (";").data

/-- Statement-level failure of the compiler. -/
inductive CompileError where
  | MissingContext
  deriving DecidableEq

/-- The STEP-3 wiring around `generate_sql_query` (app.py:490-497 and 512):
without a truthy selected table or schema no SQL is produced and an error is
shown; otherwise `generate_sql_query` runs on the current shape. -/
def compileQuery (db sch tbl : Option Str) (shape : QueryShape) (cols : List Str)
    (isAgg : Bool) : Except CompileError Str :=
  if optTruthy tbl = true then
    if optTruthy sch = true then
      Except.ok (generate_sql_query (pyStrOpt db) (pyStrOpt sch) (pyStrOpt tbl) shape cols isAgg)
    else Except.error CompileError.MissingContext
  else Except.error CompileError.MissingContext

example :
    generate_sql_query ("D").data ("S").data ("T; DROP").data ⟨[], [], []⟩ [] false =
      ("SELECT\n    *\nFROM \"D\".\"S\".\"T; DROP\";").data := by decide

/-- The GROUP BY column list as the specification describes it: the valid
selected columns whose aggregate is `none`, in sequence order.  Used to
compare the compiler's fused loop against the spec's wording. -/
def specGroupCols (cols : List Str) (items : List SelectItem) : List Str :=
  (items.filter fun it => colOk it.column cols && decide (it.agg_func = sNone)).filterMap
    SelectItem.column

lemma sg_snd_false (cols : List Str) :
    ∀ items : List SelectItem, (selectAndGroupParts cols false items).2 = [] := by
  intro items
  induction items with
  | nil => rfl
  | cons item rest ih =>
    cases hc : item.column with
    | none => simp [selectAndGroupParts, hc, ih]
    | some col =>
      by_cases hm : col ∈ cols
      · by_cases ha : item.agg_func = sNone
        · simp [selectAndGroupParts, hc, hm, ha, ih]
        · by_cases hcd : item.agg_func = sCountDistinct
          · simp [selectAndGroupParts, hc, hm, ha, hcd, ih,
              (show ¬(sCountDistinct = sNone) by decide)]
          · simp [selectAndGroupParts, hc, hm, ha, hcd, ih]
      · simp [selectAndGroupParts, hc, hm, ih]

lemma sg_snd_true (cols : List Str) :
    ∀ items : List SelectItem,
      (selectAndGroupParts cols true items).2 = specGroupCols cols items := by
  intro items
  induction items with
  | nil => rfl
  | cons item rest ih =>
    cases hc : item.column with
    | none => simp [selectAndGroupParts, specGroupCols, colOk, hc, ih]
    | some col =>
      by_cases hm : col ∈ cols
      · by_cases ha : item.agg_func = sNone
        · simpa [selectAndGroupParts, specGroupCols, colOk, hc, hm, ha] using ih
        · by_cases hcd : item.agg_func = sCountDistinct
          · simpa [selectAndGroupParts, specGroupCols, colOk, hc, hm, ha, hcd,
              (show ¬(sCountDistinct = sNone) by decide)] using ih
          · simpa [selectAndGroupParts, specGroupCols, colOk, hc, hm, ha, hcd] using ih
      · simpa [selectAndGroupParts, specGroupCols, colOk, hc, hm] using ih

lemma gen_ne_nil (db sch tbl : Str) (shape : QueryShape) (cols : List Str) (isAgg : Bool) :
    generate_sql_query db sch tbl shape cols isAgg ≠ [] := by
  unfold generate_sql_query
  intro h
  rcases List.append_eq_nil.mp h with ⟨-, h2⟩
  exact absurd h2 (by decide)


lemma condStr_of_rejected (cols : List Str) (cond : WhereCondition)
    (h : validate_sql_value (pyStrOpt cond.value) = false) : condStr cols cond = [] := by
  unfold condStr
  split
  · simp [h]
  · rfl

lemma buildParts_skip (cols : List Str) (i : Nat) (cond : WhereCondition)
    (rest : List WhereCondition) (h : validate_sql_value (pyStrOpt cond.value) = false) :
    buildConditionParts cols i (cond :: rest) = buildConditionParts cols (i + 1) rest := by
  simp [buildConditionParts, condStr_of_rejected cols cond h]

lemma condStr_cmp_emit (cols : List Str) (cond : WhereCondition) (c v : Str)
    (hcol : cond.column = some c) (hc : c ∈ cols) (hop : cond.operator ∈ cmpOps)
    (hval : cond.value = some v) (hok : validate_sql_value v = true) :
    condStr cols cond =
      c ++ (" ").data ++ cond.operator ++ (" ").data ++
        (if pyIsDigit (stripDotDash v) = true then v else '\'' :: escapeQuotes v ++ ['\'']) := by
  obtain ⟨ci, cl, cc, co, cv⟩ := cond
  simp only at hcol hval hop ⊢
  subst hcol hval
  simp only [cmpOps, List.mem_cons, List.not_mem_nil, or_false] at hop
  rcases hop with rfl | rfl | rfl | rfl | rfl | rfl <;>
    simp [condStr, colOk, hc, hok, pyStrOpt,
      (show ¬(sEq ∈ nullOps) by decide), (show ¬(sEq = sIn) by decide),
      (show hasInfixB sLike sEq = false by decide),
      (show ¬(("!=").data ∈ nullOps) by decide), (show ¬(("!=").data = sIn) by decide),
      (show hasInfixB sLike ("!=").data = false by decide),
      (show ¬((">").data ∈ nullOps) by decide), (show ¬((">").data = sIn) by decide),
      (show hasInfixB sLike (">").data = false by decide),
      (show ¬((">=").data ∈ nullOps) by decide), (show ¬((">=").data = sIn) by decide),
      (show hasInfixB sLike (">=").data = false by decide),
      (show ¬(("<").data ∈ nullOps) by decide), (show ¬(("<").data = sIn) by decide),
      (show hasInfixB sLike ("<").data = false by decide),
      (show ¬(("<=").data ∈ nullOps) by decide), (show ¬(("<=").data = sIn) by decide),
      (show hasInfixB sLike ("<=").data = false by decide)]

lemma condStr_like_contains_emit (cols : List Str) (cond : WhereCondition) (c v : Str)
    (hcol : cond.column = some c) (hc : c ∈ cols) (hop : cond.operator = sLikeContains)
    (hval : cond.value = some v) (hok : validate_sql_value v = true) :
    condStr cols cond = c ++ (" LIKE '%").data ++ escapeQuotes v ++ ("%'").data := by
  obtain ⟨ci, cl, cc, co, cv⟩ := cond
  simp only at hcol hval hop ⊢
  subst hcol hval hop
  simp [condStr, colOk, hc, hok, pyStrOpt,
    (show ¬(sLikeContains ∈ nullOps) by decide), (show ¬(sLikeContains = sIn) by decide),
    (show hasInfixB sLike sLikeContains = true by decide)]

lemma condStr_like_forward_emit (cols : List Str) (cond : WhereCondition) (c v : Str)
    (hcol : cond.column = some c) (hc : c ∈ cols) (hop : cond.operator = sLikeForward)
    (hval : cond.value = some v) (hok : validate_sql_value v = true) :
    condStr cols cond = c ++ (" LIKE '").data ++ escapeQuotes v ++ ("%'").data := by
  obtain ⟨ci, cl, cc, co, cv⟩ := cond
  simp only at hcol hval hop ⊢
  subst hcol hval hop
  simp [condStr, colOk, hc, hok, pyStrOpt,
    (show ¬(sLikeForward ∈ nullOps) by decide), (show ¬(sLikeForward = sIn) by decide),
    (show hasInfixB sLike sLikeForward = true by decide),
    (show ¬(sLikeForward = sLikeContains) by decide)]

lemma condStr_like_backward_emit (cols : List Str) (cond : WhereCondition) (c v : Str)
    (hcol : cond.column = some c) (hc : c ∈ cols) (hop : cond.operator = sLikeBackward)
    (hval : cond.value = some v) (hok : validate_sql_value v = true) :
    condStr cols cond = c ++ (" LIKE '%").data ++ escapeQuotes v ++ ("'").data := by
  obtain ⟨ci, cl, cc, co, cv⟩ := cond
  simp only at hcol hval hop ⊢
  subst hcol hval hop
  simp [condStr, colOk, hc, hok, pyStrOpt,
    (show ¬(sLikeBackward ∈ nullOps) by decide), (show ¬(sLikeBackward = sIn) by decide),
    (show hasInfixB sLike sLikeBackward = true by decide),
    (show ¬(sLikeBackward = sLikeContains) by decide),
    (show ¬(sLikeBackward = sLikeForward) by decide)]

lemma condStr_in_emit (cols : List Str) (cond : WhereCondition) (c v : Str)
    (hcol : cond.column = some c) (hc : c ∈ cols) (hop : cond.operator = sIn)
    (hval : cond.value = some v) (hok : validate_sql_value v = true) :
    condStr cols cond =
      if inItems v ≠ [] then
        c ++ (" IN (").data ++ List.intercalate sepCommaSpace (inItems v) ++ (")").data
      else [] := by
  obtain ⟨ci, cl, cc, co, cv⟩ := cond
  simp only at hcol hval hop ⊢
  subst hcol hval hop
  simp [condStr, colOk, hc, hok, pyStrOpt, (show ¬(sIn ∈ nullOps) by decide)]

lemma intercalate_single (sep x : Str) : List.intercalate sep [x] = x := by
  simp [List.intercalate, List.intersperse]

/-- C1: contrary to the claim, `generate_sql_query` interpolates the primary
table name into the FROM clause without passing it through
`sanitize_identifier`: with table name `T; DROP` the raw name appears in the
generated SQL, although sanitization would have produced `TDROP`. -/
theorem c1_from_clause_not_sanitized :
    generate_sql_query ("D").data ("S").data ("T; DROP").data ⟨[], [], []⟩ [] false =
       ("SELECT\n    *\nFROM \"D\".\"S\".\"T; DROP\";").data ∧
      sanitize_identifier (some ("T; DROP").data) = some ("TDROP").data ∧
      ("T; DROP").data ≠ ("TDROP").data := by
  decide

/-- C7 counterexample: the identifier `abc\"; DROP` sanitizes to `abc"DROP`
(the quoting character is kept by the character class), not to `abcDROP` as
the claim's example states. -/
theorem c7_cex_example_keeps_quote :
    sanitize_identifier (some ("abc\\\"; DROP").data) = some ("abc\"DROP").data ∧
      ("abc\"DROP").data ≠ ("abcDROP").data := by
  decide

/-- C7 (amended): sanitization keeps exactly the characters of the class
`[A-Za-z0-9_"]`, strips every other character, and maps an identifier that
becomes empty (or is empty) to `none`; the example `abc\"; DROP` sanitizes
to `abc"DROP`, with the quote character kept. -/
theorem c7_sanitize_character_class (s : Str) :
    (sanitize_identifier (some s) =
        if s.filter isIdentChar = [] then none else some (s.filter isIdentChar)) ∧
      (∀ c : Char, isIdentChar c = true ↔
        (('a' ≤ c ∧ c ≤ 'z') ∨ ('A' ≤ c ∧ c ≤ 'Z') ∨ ('0' ≤ c ∧ c ≤ '9') ∨ c = '_' ∨ c = '"')) ∧
      sanitize_identifier (some ("abc\\\"; DROP").data) = some ("abc\"DROP").data := by
  refine ⟨?_, ?_, by decide⟩
  · by_cases hs : s = []
    · subst hs; simp [sanitize_identifier]
    · simp [sanitize_identifier, hs]
  · intro c
    simp [isIdentChar, Bool.or_eq_true, Bool.and_eq_true, decide_eq_true_eq, or_assoc]

/-- C8: a condition with operator `=`, valid column `t.c` and value
`O'Brien` compiles to `t.c = 'O''Brien'`, the embedded quote doubled. -/
theorem c8_quote_doubling :
    build_condition_clause [("t.c").data]
      [⟨("w1").data, ("AND").data, some ("t.c").data, sEq, some ("O'Brien").data⟩] =
      ("t.c = 'O''Brien'").data := by
  decide

/-- C2 counterexample: the value `DROP` is one of the listed keywords as a
standalone token, yet the condition is emitted (the code's pattern `DROP\s+`
requires a following whitespace character), refuting the claim as stated. -/
theorem c2_cex_bare_keyword_emitted :
    build_condition_clause [("c1").data]
      [⟨("w1").data, ("AND").data, some ("c1").data, sEq, some ("DROP").data⟩] =
      ("c1 = 'DROP'").data ∧
      ("c1 = 'DROP'").data ≠ [] := by
  decide

/-- C2 (amended): a value is rejected (and its condition skipped, the
enumerate index still advancing) when it contains `--`, a complete
same-line block comment, a trailing `;` followed only by whitespace, or one
of the keywords followed immediately by a whitespace character
(case-insensitive); in particular `a'; DROP TABLE x; --` is never emitted. -/
theorem c2_dangerous_value_skipped :
    (∀ v : Str,
        (hasInfixB dashdash v = true ∨ hasBlockComment v = true ∨ semiTrailing v = true ∨
          (∃ kw ∈ kwList, containsKwWs kw v = true)) →
        validate_sql_value v = false) ∧
    (∀ (cols : List Str) (i : Nat) (cond : WhereCondition) (rest : List WhereCondition),
        validate_sql_value (pyStrOpt cond.value) = false →
        buildConditionParts cols i (cond :: rest) = buildConditionParts cols (i + 1) rest) ∧
    build_condition_clause [("t.c").data]
      [⟨("w1").data, ("AND").data, some ("t.c").data, sEq,
        some ("a'; DROP TABLE x; --").data⟩] = [] := by
  refine ⟨?_, buildParts_skip, by decide⟩
  intro v h
  have hv : v ≠ [] := by
    rintro rfl
    rcases h with h | h | h | ⟨kw, hkw, h⟩
    · exact absurd h (by decide)
    · exact absurd h (by decide)
    · exact absurd h (by decide)
    · simp [containsKwWs] at h
  rw [validate_sql_value, if_neg hv]
  have hd : dangerousHit v = true := by
    unfold dangerousHit
    rcases h with h | h | h | ⟨kw, hkw, h⟩
    · rw [h]; simp
    · rw [h]; simp
    · rw [h]; simp
    · have hany : kwList.any (fun kw => containsKwWs kw v) = true :=
        List.any_eq_true.mpr ⟨kw, hkw, h⟩
      rw [hany]; simp
  simp [hd]

/-- Witness for C2: concrete instances of both guarded parts of the theorem. -/
theorem c2_dangerous_value_skipped_witness :
    validate_sql_value ("x--").data = false ∧
      buildConditionParts [("c1").data] 0
        [⟨("w1").data, ("AND").data, some ("c1").data, sEq, some ("x--").data⟩] =
        buildConditionParts [("c1").data] 1 [] :=
  ⟨c2_dangerous_value_skipped.1 (("x--").data) (Or.inl (by decide)),
   c2_dangerous_value_skipped.2.1 [("c1").data] 0
     ⟨("w1").data, ("AND").data, some ("c1").data, sEq, some ("x--").data⟩ [] (by decide)⟩

/-- C3 counterexample: an `IN` segment containing a single quote is wrapped
in quotes without doubling the quote — `O'Brien` is emitted as `'O'Brien'`,
not `'O''Brien'` — refuting the claim that escaping applies to every quoted
emission. -/
theorem c3_cex_in_segment_not_escaped :
    build_condition_clause [("t.c").data]
      [⟨("w1").data, ("AND").data, some ("t.c").data, sIn, some ("O'Brien").data⟩] =
      ("t.c IN ('O'Brien')").data ∧
      ("t.c IN ('O'Brien')").data ≠ ("t.c IN ('O''Brien')").data := by
  decide

/-- C3 (amended): quote doubling applies to the quoted emissions of the six
comparison operators and the three LIKE variants, while the segments of an
`IN` value are trimmed and wrapped in quotes without any escaping. -/
theorem c3_escaping_scope :
    (∀ (cols : List Str) (cond : WhereCondition) (c v : Str),
        cond.column = some c → c ∈ cols → cond.operator ∈ cmpOps → cond.value = some v →
        validate_sql_value v = true → pyIsDigit (stripDotDash v) = false →
        condStr cols cond =
          c ++ (" ").data ++ cond.operator ++ (" ").data ++
            ('\'' :: escapeQuotes v ++ ['\''])) ∧
    (∀ (cols : List Str) (cond : WhereCondition) (c v : Str),
        cond.column = some c → c ∈ cols → cond.operator = sLikeContains → cond.value = some v →
        validate_sql_value v = true →
        condStr cols cond = c ++ (" LIKE '%").data ++ escapeQuotes v ++ ("%'").data) ∧
    (∀ (cols : List Str) (cond : WhereCondition) (c v : Str),
        cond.column = some c → c ∈ cols → cond.operator = sLikeForward → cond.value = some v →
        validate_sql_value v = true →
        condStr cols cond = c ++ (" LIKE '").data ++ escapeQuotes v ++ ("%'").data) ∧
    (∀ (cols : List Str) (cond : WhereCondition) (c v : Str),
        cond.column = some c → c ∈ cols → cond.operator = sLikeBackward → cond.value = some v →
        validate_sql_value v = true →
        condStr cols cond = c ++ (" LIKE '%").data ++ escapeQuotes v ++ ("'").data) ∧
    (∀ (cols : List Str) (cond : WhereCondition) (c v : Str),
        cond.column = some c → c ∈ cols → cond.operator = sIn → cond.value = some v →
        validate_sql_value v = true →
        condStr cols cond =
          if inItems v ≠ [] then
            c ++ (" IN (").data ++ List.intercalate sepCommaSpace (inItems v) ++ (")").data
          else []) ∧
    (∀ v : Str,
        inItems v = (splitComma v).filterMap fun seg =>
          if pyStrip seg = [] then none else some ('\'' :: pyStrip seg ++ ['\''])) := by
  refine ⟨?_, condStr_like_contains_emit, condStr_like_forward_emit,
    condStr_like_backward_emit, condStr_in_emit, ?_⟩
  · intro cols cond c v hcol hc hop hval hok hnum
    rw [condStr_cmp_emit cols cond c v hcol hc hop hval hok, hnum]
    simp
  · intro v
    simp [inItems]

/-- Witness for C3: concrete instances of the comparison and IN parts. -/
theorem c3_escaping_scope_witness :
    condStr [("t.c").data]
        ⟨("w1").data, ("AND").data, some ("t.c").data, sEq, some ("O'Brien").data⟩ =
        ("t.c").data ++ (" ").data ++ sEq ++ (" ").data ++
          ('\'' :: escapeQuotes ("O'Brien").data ++ ['\'']) ∧
      condStr [("t.c").data]
        ⟨("w2").data, ("AND").data, some ("t.c").data, sIn, some ("A").data⟩ =
        (if inItems ("A").data ≠ [] then
          ("t.c").data ++ (" IN (").data ++
            List.intercalate sepCommaSpace (inItems ("A").data) ++ (")").data
        else []) :=
  ⟨c3_escaping_scope.1 [("t.c").data]
     ⟨("w1").data, ("AND").data, some ("t.c").data, sEq, some ("O'Brien").data⟩
     (("t.c").data) (("O'Brien").data) rfl (by decide) (by decide) rfl (by decide) (by decide),
   c3_escaping_scope.2.2.2.2.1 [("t.c").data]
     ⟨("w2").data, ("AND").data, some ("t.c").data, sIn, some ("A").data⟩
     (("t.c").data) (("A").data) rfl (by decide) rfl rfl (by decide)⟩

/-- C6 counterexample: the value `1.2.3` has two decimal points, yet it is
emitted unquoted (the code strips every `.` and `-` before `isdigit`),
refuting the single-decimal-point reading of the claim. -/
theorem c6_cex_two_decimal_points_unquoted :
    build_condition_clause [("c1").data]
      [⟨("w1").data, ("AND").data, some ("c1").data, sEq, some ("1.2.3").data⟩] =
      ("c1 = 1.2.3").data ∧
      ("c1 = 1.2.3").data ≠ ("c1 = '1.2.3'").data := by
  decide

/-- C6 (amended): a comparison value is emitted unquoted as a numeric
literal exactly when removing every `.` and `-` character (wherever they
occur, however many) leaves a non-empty all-digit string; every other value
is emitted quoted with its single quotes doubled. -/
theorem c6_numeric_detection :
    ∀ (cols : List Str) (cond : WhereCondition) (c v : Str),
      cond.column = some c → c ∈ cols → cond.operator ∈ cmpOps → cond.value = some v →
      validate_sql_value v = true →
      condStr cols cond =
        c ++ (" ").data ++ cond.operator ++ (" ").data ++
          (if pyIsDigit (v.filter fun ch => !(ch = '.' || ch = '-')) = true then v
           else '\'' :: escapeQuotes v ++ ['\'']) := by
  intro cols cond c v hcol hc hop hval hok
  simpa [stripDotDash] using condStr_cmp_emit cols cond c v hcol hc hop hval hok

/-- Witness for C6: the value `1-2` survives digit detection and is emitted
unquoted. -/
theorem c6_numeric_detection_witness :
    condStr [("c1").data]
      ⟨("w1").data, ("AND").data, some ("c1").data, sEq, some ("1-2").data⟩ =
      ("c1").data ++ (" ").data ++ sEq ++ (" ").data ++
        (if pyIsDigit ((("1-2").data).filter fun ch => !(ch = '.' || ch = '-')) = true then
          ("1-2").data
        else '\'' :: escapeQuotes ("1-2").data ++ ['\'']) :=
  c6_numeric_detection [("c1").data]
    ⟨("w1").data, ("AND").data, some ("c1").data, sEq, some ("1-2").data⟩
    (("c1").data) (("1-2").data) rfl (by decide) (by decide) rfl (by decide)

/-- C10: a condition with a valid column, comparison operator `=` and the
empty string as value is not skipped: the completeness check only concerns
the null-check operators, the empty value passes `validate_sql_value`, and
the predicate compares against the empty quoted literal. -/
theorem c10_empty_value_emitted (cols : List Str) (cond : WhereCondition) (c : Str)
    (hcol : cond.column = some c) (hc : c ∈ cols) (hop : cond.operator = sEq)
    (hval : cond.value = some []) :
    build_condition_clause cols [cond] = c ++ (" = ''").data ∧
      validate_sql_value [] = true := by
  have h := condStr_cmp_emit cols cond c [] hcol hc (by rw [hop]; decide) hval (by decide)
  rw [hop] at h
  have h2 : condStr cols cond = c ++ (" = ''").data := by
    rw [h]; simp [sEq, escapeQuotes, pyIsDigit, stripDotDash]
  have hne : condStr cols cond ≠ [] := by
    rw [h2]
    simp
  refine ⟨?_, by decide⟩
  have hparts : buildConditionParts cols 0 [cond] = [c ++ (" = ''").data] := by
    simp [buildConditionParts, h2, hne]
  simp [build_condition_clause, hparts, intercalate_single]

/-- Witness for C10: the empty value against column `c1`. -/
theorem c10_empty_value_emitted_witness :
    build_condition_clause [("c1").data]
      [⟨("w1").data, ("AND").data, some ("c1").data, sEq, some []⟩] =
      ("c1").data ++ (" = ''").data ∧
      validate_sql_value [] = true :=
  c10_empty_value_emitted [("c1").data]
    ⟨("w1").data, ("AND").data, some ("c1").data, sEq, some []⟩
    (("c1").data) rfl (by decide) rfl rfl

/-- C4: with the structural invariant of the cascading dropdowns (a truthy
schema implies a truthy database), a missing database, schema or table makes
compilation fail with `MissingContext` and no SQL; with all three present,
every shape compiles to a non-empty statement — per-item failures never
become statement-level failures. -/
theorem c4_missing_context (db sch tbl : Option Str) (shape : QueryShape)
    (cols : List Str) (isAgg : Bool)
    (hinv : optTruthy sch = true → optTruthy db = true) :
    ((optTruthy db = false ∨ optTruthy sch = false ∨ optTruthy tbl = false) →
        compileQuery db sch tbl shape cols isAgg = Except.error CompileError.MissingContext) ∧
      ((optTruthy db = true ∧ optTruthy sch = true ∧ optTruthy tbl = true) →
        ∃ s, compileQuery db sch tbl shape cols isAgg = Except.ok s ∧ s ≠ []) := by
  constructor
  · intro h
    unfold compileQuery
    rcases h with h | h | h
    · have hs : optTruthy sch = false := by
        cases hq : optTruthy sch
        · rfl
        · exact absurd (hinv hq) (by simp [h])
      cases ht : optTruthy tbl <;> simp [ht, hs]
    · cases ht : optTruthy tbl <;> simp [ht, h]
    · simp [h]
  · rintro ⟨hdb, hs, ht⟩
    exact ⟨generate_sql_query (pyStrOpt db) (pyStrOpt sch) (pyStrOpt tbl) shape cols isAgg,
      by simp [compileQuery, hs, ht], gen_ne_nil _ _ _ _ _ _⟩

/-- Witness for C4: schema present but no table gives `MissingContext`; all
three present gives a non-empty statement. -/
theorem c4_missing_context_witness :
    compileQuery (some ("D").data) (some ("S").data) none ⟨[], [], []⟩ [] false =
        Except.error CompileError.MissingContext ∧
      ∃ s, compileQuery (some ("D").data) (some ("S").data) (some ("T").data)
        ⟨[], [], []⟩ [] false = Except.ok s ∧ s ≠ [] :=
  ⟨(c4_missing_context (some ("D").data) (some ("S").data) none ⟨[], [], []⟩ [] false
      (by decide)).1 (Or.inr (Or.inr (by decide))),
   (c4_missing_context (some ("D").data) (some ("S").data) (some ("T").data) ⟨[], [], []⟩ [] false
      (by decide)).2 ⟨by decide, by decide, by decide⟩⟩

lemma generate_groupby_split (db sch tbl : Str) (shape : QueryShape) (cols : List Str) :
    generate_sql_query db sch tbl shape cols (isAggregationUsed shape) =
      basePart db sch tbl shape cols (isAggregationUsed shape) ++
        (if isAggregationUsed shape = true ∧ specGroupCols cols shape.select_items ≠ [] then
          sepGroupBy ++ List.intercalate sepCommaSpace (specGroupCols cols shape.select_items)
        else []) ++ (";").data := by
  unfold generate_sql_query
  cases hA : isAggregationUsed shape
  · simp [sg_snd_false]
  · rw [sg_snd_true]
    by_cases hg : specGroupCols cols shape.select_items = []
    · simp [hg]
    · simp [hg, List.append_assoc]

/-- C5: the compiled statement is the SELECT/FROM/WHERE part followed by a
GROUP BY section listing, in sequence order, exactly the valid selected
columns with aggregate `none` — present precisely when some SelectItem uses
a non-`none` aggregate and that list is non-empty; and when every SelectItem
uses aggregate `none`, no GROUP BY section is emitted at all. -/
theorem c5_groupby_inference (db sch tbl : Str) (shape : QueryShape) (cols : List Str) :
    (generate_sql_query db sch tbl shape cols (isAggregationUsed shape) =
        basePart db sch tbl shape cols (isAggregationUsed shape) ++
          (if isAggregationUsed shape = true ∧ specGroupCols cols shape.select_items ≠ [] then
            sepGroupBy ++ List.intercalate sepCommaSpace (specGroupCols cols shape.select_items)
          else []) ++ (";").data) ∧
      ((shape.select_items.all fun it => decide (it.agg_func = sNone)) = true →
        generate_sql_query db sch tbl shape cols (isAggregationUsed shape) =
          basePart db sch tbl shape cols (isAggregationUsed shape) ++ (";").data) := by
  refine ⟨generate_groupby_split db sch tbl shape cols, ?_⟩
  intro hall
  have hA : isAggregationUsed shape = false := by
    cases hq : isAggregationUsed shape
    · rfl
    · exfalso
      unfold isAggregationUsed at hq
      obtain ⟨it, hit, hne⟩ := List.any_eq_true.mp hq
      have h1 := List.all_eq_true.mp hall it hit
      simp only [decide_eq_true_eq] at hne h1
      exact hne h1
  rw [generate_groupby_split db sch tbl shape cols, hA]
  simp

/-- An all-`none` shape used as the C5 witness. -/
def wAllNone : QueryShape :=
  ⟨[⟨("s1").data, some ("t.k").data, sNone⟩, ⟨("s2").data, some ("t.j").data, sNone⟩], [], []⟩

/-- Witness for C5: two plain columns and no aggregate yield no GROUP BY. -/
theorem c5_groupby_inference_witness :
    generate_sql_query ("D").data ("S").data ("T").data wAllNone
        [("t.k").data, ("t.j").data] (isAggregationUsed wAllNone) =
      basePart ("D").data ("S").data ("T").data wAllNone
        [("t.k").data, ("t.j").data] (isAggregationUsed wAllNone) ++ (";").data :=
  (c5_groupby_inference ("D").data ("S").data ("T").data wAllNone
    [("t.k").data, ("t.j").data]).2 (by decide)

lemma removeOn_noop_first (iid : Str) :
    ∀ (js : List Join) (pid : Str),
      (∀ j : Join, js.find? (fun j => decide (j.id = pid)) = some j →
        iid ∉ j.on_conditions.map OnCondition.id) →
      removeOnFromJoins js pid iid = js := by
  intro js pid
  induction js with
  | nil => intro _; rfl
  | cons j rest ih =>
    intro h
    unfold removeOnFromJoins
    by_cases hj : j.id = pid
    · rw [if_pos hj]
      have hfind : (j :: rest).find? (fun j => decide (j.id = pid)) = some j :=
        List.find?_cons_of_pos _ (by simp [hj])
      have hmem := h j hfind
      have hfilter : j.on_conditions.filter (fun c => decide ¬(c.id = iid)) = j.on_conditions := by
        apply List.filter_eq_self.mpr
        intro c hc
        have hcid : ¬(c.id = iid) := fun he => hmem (List.mem_map.mpr ⟨c, hc, he⟩)
        simp [hcid]
      rw [hfilter]
    · have hrest : ∀ j' : Join, rest.find? (fun j => decide (j.id = pid)) = some j' →
          iid ∉ j'.on_conditions.map OnCondition.id := by
        intro j' hj'
        apply h
        rw [List.find?_cons_of_neg _ (by simp [hj])]
        exact hj'
      rw [if_neg hj, ih hrest]

/-- C9: removing an id that does not occur in the targeted sequence — any of
the three top-level sequences, or, when a parent join id is supplied, the ON
conditions of the targeted join (the first join whose id matches the parent
id; when no join matches, nothing is filtered at all) — leaves the query
shape unchanged.  Other joins' ON conditions may well contain the id. -/
theorem c9_remove_missing_id_noop (shape : QueryShape) (iid : Str) :
    ((iid ∉ shape.select_items.map SelectItem.id) →
        remove_item shape CollectionKey.select_items iid none = shape) ∧
      ((iid ∉ shape.where_conditions.map WhereCondition.id) →
        remove_item shape CollectionKey.where_conditions iid none = shape) ∧
      ((iid ∉ shape.joins.map Join.id) →
        remove_item shape CollectionKey.joins iid none = shape) ∧
      (∀ pid : Str, pid ≠ [] →
        (∀ j : Join, shape.joins.find? (fun j => decide (j.id = pid)) = some j →
          iid ∉ j.on_conditions.map OnCondition.id) →
        ∀ key : CollectionKey, remove_item shape key iid (some pid) = shape) := by
  refine ⟨?_, ?_, ?_, ?_⟩
  · intro h
    have hfil : shape.select_items.filter (fun it => !decide (it.id = iid)) =
        shape.select_items := by
      apply List.filter_eq_self.mpr
      intro it hit
      have hne : ¬(it.id = iid) := fun he => h (List.mem_map.mpr ⟨it, hit, he⟩)
      simp [hne]
    simp [remove_item, optTruthy, hfil]
  · intro h
    have hfil : shape.where_conditions.filter (fun it => !decide (it.id = iid)) =
        shape.where_conditions := by
      apply List.filter_eq_self.mpr
      intro it hit
      have hne : ¬(it.id = iid) := fun he => h (List.mem_map.mpr ⟨it, hit, he⟩)
      simp [hne]
    simp [remove_item, optTruthy, hfil]
  · intro h
    have hfil : shape.joins.filter (fun it => !decide (it.id = iid)) = shape.joins := by
      apply List.filter_eq_self.mpr
      intro it hit
      have hne : ¬(it.id = iid) := fun he => h (List.mem_map.mpr ⟨it, hit, he⟩)
      simp [hne]
    simp [remove_item, optTruthy, hfil]
  · intro pid hpid hall key
    have ht : optTruthy (some pid) = true := by
      cases pid
      · exact absurd rfl hpid
      · rfl
    simp [remove_item, ht, pyStrOpt, removeOn_noop_first iid shape.joins pid hall]

/-- A small shape with one entry in every sequence, used as the C9 witness. -/
def wShape : QueryShape :=
  ⟨[⟨("s1").data, some ("t.a").data, sNone⟩],
   [⟨("w1").data, ("AND").data, some ("t.a").data, sEq, some ("1").data⟩],
   [⟨("j1").data, ("INNER JOIN").data, some ("T2").data,
     [⟨("o1").data, some ("t.a").data, some ("T2.b").data⟩]⟩]⟩

/-- Two joins: `j1` owns the ON condition with id `x`, `j2` owns none.
Removing `x` below join `j2` must be a no-op even though `x` occurs in the
sibling join `j1`. -/
def wShape2 : QueryShape :=
  ⟨[], [],
   [⟨("j1").data, ("INNER JOIN").data, some ("T2").data,
     [⟨("x").data, some ("t.a").data, some ("T2.b").data⟩]⟩,
    ⟨("j2").data, ("LEFT JOIN").data, some ("T3").data, []⟩]⟩

/-- Witness for C9: removing an unknown id from the select items, and
removing id `x` below join `j2` while `x` lives only in the sibling join
`j1`, both leave the shape unchanged. -/
theorem c9_remove_missing_id_noop_witness :
    remove_item wShape CollectionKey.select_items ("zz").data none = wShape ∧
      remove_item wShape2 CollectionKey.joins ("x").data (some ("j2").data) = wShape2 :=
  ⟨(c9_remove_missing_id_noop wShape (("zz").data)).1 (by decide),
   (c9_remove_missing_id_noop wShape2 (("x").data)).2.2.2 (("j2").data) (by decide)
     (by
       intro j hj
       have hfind : wShape2.joins.find? (fun j => decide (j.id = ("j2").data)) =
           some ⟨("j2").data, ("LEFT JOIN").data, some ("T3").data, []⟩ := by decide
       rw [hfind] at hj
       cases hj
       decide)
     CollectionKey.joins⟩
